import Mathlib

/-!
Shallow embedding of `src/main.rs` of the solana-transfer repository.

The program is a single-shot CLI that transfers a fixed amount of lamports
from a sender account to a receiver account over an RPC client.  The SDK
primitives (base-58 decoding, `Keypair::from_bytes`, `Pubkey::from_str`) and
the network (balance queries, blockhash fetch, transaction submission) are
external collaborators: they are modelled as an explicit environment `Env`
of oracle functions, and every network interaction performed by the embedded
code is recorded in an explicit trace of `NetCall` events.

Rust `u64` arithmetic is modelled on `Nat` with an explicit `% 2 ^ 64`
where the source can overflow (release builds of Rust wrap unsigned
addition; debug builds panic — either way the unchecked `+` in
`check_sufficient_balance` does not saturate).
-/

namespace SolanaTransfer

/-- The modulus of Rust `u64` arithmetic. -/
def U64MOD : Nat := 2 ^ 64

/-- Wrapping `u64` addition, the semantics of `a + b` on `u64` in a release
build of the Rust source. -/
def u64add (a b : Nat) : Nat := (a + b) % U64MOD

/-- `solana_sdk::pubkey::Pubkey`: an opaque fixed-size binary account
reference; equality is byte equality. -/
structure Pubkey where
  bytes : List Nat
  deriving DecidableEq

/-- `solana_sdk::signature::Keypair`: secret bytes plus the derived public
key, as returned by `Keypair::from_bytes`.  `Keypair.pubkey` mirrors the
`Signer::pubkey()` accessor. -/
structure Keypair where
  secret : List Nat
  pubkey : Pubkey
  deriving DecidableEq

/-- Failure kinds of the RPC client (`solana_client`): a plain network
error, a confirmation timeout, or an on-chain rejection. -/
inductive ClientError
  | networkError
  | timeout
  | rejectedByChain
  deriving DecidableEq

/-- The distinct error sites of the Rust source, one constructor per
`anyhow!` message plus one for `?`-propagated RPC-client errors.
`anyhow` preserves the wrapped source error, so the client-error kind
stays observable to the caller; the embedding keeps it as data. -/
inductive TransferError
  | invalidPrivateKey
  | invalidKeyLength
  | keypairCreationFailed
  | invalidReceiverPubkey
  | clientError (e : ClientError)
  | insufficientBalance (current required : Nat)
  deriving DecidableEq

/-- `system_instruction::transfer(from_pubkey, to_pubkey, lamports)`. -/
structure TransferInstruction where
  fromPubkey : Pubkey
  toPubkey : Pubkey
  lamports : Nat
  deriving DecidableEq

/-- `solana_sdk::message::Message` as used by the source:
`Message::new(&[instruction], Some(&payer))`. -/
structure Message where
  instructions : List TransferInstruction
  payer : Option Pubkey
  deriving DecidableEq

/-- A transaction: the message, the recency anchor (blockhash) it is bound
to once signed, and the public keys of its signers. -/
structure Transaction where
  message : Message
  recentBlockhash : Option Nat
  signers : List Pubkey
  deriving DecidableEq

/-- `Transaction::new_unsigned(message)`. -/
def Transaction.new_unsigned (m : Message) : Transaction :=
  { message := m, recentBlockhash := none, signers := [] }

/-- `transaction.sign(&[&keypair], recent_blockhash)`: binds the recency
anchor and records the signer. -/
def Transaction.sign (t : Transaction) (kp : Keypair) (recent_blockhash : Nat) :
    Transaction :=
  { t with recentBlockhash := some recent_blockhash, signers := [kp.pubkey] }

/-- `solana_sdk::commitment_config::CommitmentConfig` levels. -/
inductive CommitmentLevel
  | processed
  | confirmed
  | finalized
  deriving DecidableEq

/-- `solana_client::rpc_config::RpcSendTransactionConfig`, the submission
configuration literal built in `send_transaction`. -/
structure RpcSendTransactionConfig where
  skip_preflight : Bool
  preflight_commitment : Option CommitmentLevel
  encoding : Option Nat
  max_retries : Option Nat
  min_context_slot : Option Nat
  deriving DecidableEq

/-- One network interaction of the RPC client.  `getBalance` and
`getLatestBlockhash` are reads; `submit` is the only mutating call
(`send_and_confirm_transaction_with_spinner_and_config`). -/
inductive NetCall
  | getBalance (pk : Pubkey)
  | getLatestBlockhash
  | submit (tx : Transaction) (commitment : CommitmentLevel)
      (cfg : RpcSendTransactionConfig)
  deriving DecidableEq

/-- Whether a network call is the mutating submission call. -/
def isSubmit : NetCall → Bool
  | .submit _ _ _ => true
  | _ => false

/-- Number of submission calls in a trace. -/
def countSubmits (l : List NetCall) : Nat := (l.filter isSubmit).length

/-- Every submission call in the trace skips preflight simulation. -/
def submitSkipsPreflight : NetCall → Bool
  | .submit _ _ cfg => cfg.skip_preflight
  | _ => true

/-- `NetworkConfig` of the Rust `Settings`. -/
structure NetworkConfig where
  rpc_url : String
  deriving DecidableEq

/-- `KeysConfig` of the Rust `Settings`. -/
structure KeysConfig where
  sender_private_key : String
  receiver_public_key : String
  deriving DecidableEq

/-- `TransactionConfig` of the Rust `Settings`; the three `u64` fields. -/
structure TransactionConfig where
  amount : Nat
  min_balance : Nat
  confirmation_timeout : Nat
  deriving DecidableEq

/-- The deserialized `Settings` struct. -/
structure Settings where
  network : NetworkConfig
  keys : KeysConfig
  transaction : TransactionConfig
  deriving DecidableEq

/-- The external collaborators of one run: the pure SDK decoding
primitives and the RPC oracle.  Balance responses are indexed by the
ordinal of the `get_balance` call within the run, since the code queries
the balance several times and each query is a fresh network read. -/
structure Env where
  decodeBase58 : String → Option (List Nat)
  keypairFromBytes : List Nat → Option Keypair
  pubkeyFromStr : String → Option Pubkey
  balanceResponse : Nat → Except ClientError Nat
  blockhashResponse : Except ClientError Nat
  submitResponse : Except ClientError String

/-- `SolanaTransactionManager::create_sender_keypair`: base-58-decode the
configured secret key, require exactly 64 bytes, then build the keypair. -/
def create_sender_keypair (env : Env) (config : Settings) :
    Except TransferError Keypair :=
  match env.decodeBase58 config.keys.sender_private_key with
  | none => .error .invalidPrivateKey
  | some private_key =>
    if private_key.length ≠ 64 then
      .error .invalidKeyLength
    else
      match env.keypairFromBytes private_key with
      | none => .error .keypairCreationFailed
      | some keypair => .ok keypair

/-- `SolanaTransactionManager::check_sufficient_balance`: one balance read
(the `n`-th of the run), then the unchecked `u64` comparison
`balance >= amount + self.config.transaction.min_balance`. -/
def check_sufficient_balance (env : Env) (config : Settings) (n : Nat)
    (sender_pubkey : Pubkey) (amount : Nat) :
    Except TransferError Bool × List NetCall :=
  match env.balanceResponse n with
  | .error e => (.error (.clientError e), [.getBalance sender_pubkey])
  | .ok balance =>
      (.ok (decide (u64add amount config.transaction.min_balance ≤ balance)),
       [.getBalance sender_pubkey])

/-- `SolanaTransactionManager::send_transaction`, with `n` the ordinal of
the first `get_balance` call it performs.  Returns the result together
with the trace of network calls made, in order. -/
def send_transaction (env : Env) (config : Settings) (n : Nat) :
    Except TransferError String × List NetCall :=
  match create_sender_keypair env config with
  | .error e => (.error e, [])
  | .ok sender_keypair =>
    match env.pubkeyFromStr config.keys.receiver_public_key with
    | none => (.error .invalidReceiverPubkey, [])
    | some receiver_pubkey =>
      match env.balanceResponse n with
      | .error e => (.error (.clientError e), [.getBalance sender_keypair.pubkey])
      | .ok current_balance =>
        match check_sufficient_balance env config (n + 1) sender_keypair.pubkey
            config.transaction.amount with
        | (.error e, calls) =>
            (.error e, .getBalance sender_keypair.pubkey :: calls)
        | (.ok ok, calls) =>
          if !ok then
            (.error (.insufficientBalance current_balance
                (u64add config.transaction.amount config.transaction.min_balance)),
             .getBalance sender_keypair.pubkey :: calls)
          else
            let instruction := TransferInstruction.mk sender_keypair.pubkey
                receiver_pubkey config.transaction.amount
            match env.blockhashResponse with
            | .error e =>
                (.error (.clientError e),
                 .getBalance sender_keypair.pubkey :: calls ++ [.getLatestBlockhash])
            | .ok recent_blockhash =>
              let message := Message.mk [instruction] (some sender_keypair.pubkey)
              let transaction :=
                (Transaction.new_unsigned message).sign sender_keypair recent_blockhash
              let sendConfig : RpcSendTransactionConfig :=
                { skip_preflight := true, preflight_commitment := none,
                  encoding := none, max_retries := none, min_context_slot := none }
              match env.submitResponse with
              | .error e =>
                  (.error (.clientError e),
                   .getBalance sender_keypair.pubkey :: calls ++
                     [.getLatestBlockhash,
                      .submit transaction CommitmentLevel.confirmed sendConfig])
              | .ok signature =>
                match env.balanceResponse (n + 2) with
                | .error e =>
                    (.error (.clientError e),
                     .getBalance sender_keypair.pubkey :: calls ++
                       [.getLatestBlockhash,
                        .submit transaction CommitmentLevel.confirmed sendConfig,
                        .getBalance sender_keypair.pubkey])
                | .ok _ =>
                    (.ok signature,
                     .getBalance sender_keypair.pubkey :: calls ++
                       [.getLatestBlockhash,
                        .submit transaction CommitmentLevel.confirmed sendConfig,
                        .getBalance sender_keypair.pubkey])

/-- The `main` function: config load (`SolanaTransactionManager::new`),
keypair creation, one balance print (`get_balance` call 0 of the run),
then `send_transaction` (whose first balance call is therefore call 1).
Failures before the transfer propagate with `?` (process exits 1);
a failure of `send_transaction` itself is only logged with `error!` and
`main` still returns `Ok(())` (process exits 0).  The result is the
process exit code paired with the printed transaction signature, if any. -/
def main_run (configResult : Option Settings) (env : Env) : Nat × Option String :=
  match configResult with
  | none => (1, none)
  | some config =>
    match create_sender_keypair env config with
    | .error _ => (1, none)
    | .ok _ =>
      match env.balanceResponse 0 with
      | .error _ => (1, none)
      | .ok _ =>
        match (send_transaction env config 1).1 with
        | .ok signature => (0, some signature)
        | .error _ => (0, none)

/-- The transaction `send_transaction` builds and signs before submission:
one transfer instruction from the signing key's public key to the receiver,
fee payer the signing key's public key, bound to the fetched blockhash. -/
def builtTransaction (kp : Keypair) (receiver : Pubkey) (amount recent_blockhash : Nat) :
    Transaction :=
  (Transaction.new_unsigned
      (Message.mk [TransferInstruction.mk kp.pubkey receiver amount]
        (some kp.pubkey))).sign kp recent_blockhash

/-- The submission configuration literal of `send_transaction`. -/
def sendConfigLit : RpcSendTransactionConfig :=
  { skip_preflight := true, preflight_commitment := none,
    encoding := none, max_retries := none, min_context_slot := none }

section PathLemmas

variable (env : Env) (config : Settings) (n : Nat)

/-- Path lemma: the second balance read succeeds but reports an
insufficient balance. -/
lemma send_transaction_insufficient (kp : Keypair) (r : Pubkey) (b0 b1 : Nat)
    (hkp : create_sender_keypair env config = .ok kp)
    (hr : env.pubkeyFromStr config.keys.receiver_public_key = some r)
    (h0 : env.balanceResponse n = .ok b0)
    (h1 : env.balanceResponse (n + 1) = .ok b1)
    (hins : ¬ u64add config.transaction.amount config.transaction.min_balance ≤ b1) :
    send_transaction env config n =
      (.error (.insufficientBalance b0
          (u64add config.transaction.amount config.transaction.min_balance)),
       [.getBalance kp.pubkey, .getBalance kp.pubkey]) := by
  simp only [send_transaction, check_sufficient_balance, hkp, hr, h0, h1,
    decide_eq_false hins, Bool.not_false, if_true]

/-- Path lemma: the balance is sufficient and a blockhash is obtained, and
the submission call returns `res`; the trace then contains exactly one
submission, of the built and signed transaction, with preflight skipped,
followed (on submission success) by one more balance read answered by
`env.balanceResponse (n + 2)`. -/
lemma send_transaction_submitted (kp : Keypair) (r : Pubkey) (b0 b1 bh : Nat)
    (hkp : create_sender_keypair env config = .ok kp)
    (hr : env.pubkeyFromStr config.keys.receiver_public_key = some r)
    (h0 : env.balanceResponse n = .ok b0)
    (h1 : env.balanceResponse (n + 1) = .ok b1)
    (hsuff : u64add config.transaction.amount config.transaction.min_balance ≤ b1)
    (hbh : env.blockhashResponse = .ok bh) :
    send_transaction env config n =
      match env.submitResponse with
      | .error e =>
          (.error (.clientError e),
           [.getBalance kp.pubkey, .getBalance kp.pubkey, .getLatestBlockhash,
            .submit (builtTransaction kp r config.transaction.amount bh)
              CommitmentLevel.confirmed sendConfigLit])
      | .ok signature =>
          match env.balanceResponse (n + 2) with
          | .error e =>
              (.error (.clientError e),
               [.getBalance kp.pubkey, .getBalance kp.pubkey, .getLatestBlockhash,
                .submit (builtTransaction kp r config.transaction.amount bh)
                  CommitmentLevel.confirmed sendConfigLit,
                .getBalance kp.pubkey])
          | .ok _ =>
              (.ok signature,
               [.getBalance kp.pubkey, .getBalance kp.pubkey, .getLatestBlockhash,
                .submit (builtTransaction kp r config.transaction.amount bh)
                  CommitmentLevel.confirmed sendConfigLit,
                .getBalance kp.pubkey]) := by
  simp only [send_transaction, check_sufficient_balance, hkp, hr, h0, h1, hbh,
    decide_eq_true hsuff, Bool.not_true, if_false, builtTransaction, sendConfigLit]
  cases env.submitResponse with
  | error e => simp
  | ok s =>
    cases env.balanceResponse (n + 2) with
    | error e => simp
    | ok b2 => simp

end PathLemmas

/-! Concrete test fixtures used by witnesses and counterexample runs. -/

/-- A concrete keypair, as the model of what `Keypair::from_bytes` returns
on the 64 decoded bytes of the test vector. -/
def kpW : Keypair := ⟨List.replicate 64 0, ⟨List.replicate 32 1⟩⟩

/-- A concrete receiver public key. -/
def pkR : Pubkey := ⟨List.replicate 32 2⟩

/-- Concrete settings: amount 10 lamports, reserve 3 lamports. -/
def settingsW : Settings :=
  { network := ⟨"http://localhost:8899"⟩,
    keys := ⟨"senderSecret", "receiverAddr"⟩,
    transaction := ⟨10, 3, 30⟩ }

/-- Concrete settings with the maximal `u64` amount, for the overflow run. -/
def settingsC1 : Settings :=
  { network := ⟨"http://localhost:8899"⟩,
    keys := ⟨"senderSecret", "receiverAddr"⟩,
    transaction := ⟨18446744073709551615, 2, 30⟩ }

/-- A run in which every balance read answers 5 lamports (insufficient for
amount 10 + reserve 3), decoding succeeds, and submission would succeed. -/
def envW : Env :=
  { decodeBase58 := fun _ => some (List.replicate 64 0),
    keypairFromBytes := fun _ => some kpW,
    pubkeyFromStr := fun _ => some pkR,
    balanceResponse := fun _ => .ok 5,
    blockhashResponse := .ok 7,
    submitResponse := .ok "sig" }

/-- The same run with every balance read answering 100 lamports
(sufficient), so the transfer goes through. -/
def envOK : Env := { envW with balanceResponse := fun _ => .ok 100 }

/-- A sufficient-balance run whose submission call times out. -/
def envT : Env := { envOK with submitResponse := .error .timeout }

/-- A sufficient-balance run whose receiver address fails to parse. -/
def envBadAddr : Env := { envOK with pubkeyFromStr := fun _ => none }

/-- A run where submission succeeds but the balance read after
confirmation fails with a network error. -/
def envPost : Env :=
  { envOK with
    balanceResponse := fun k => if k < 2 then .ok 100 else .error .networkError }

/-! Claim theorems. -/

/-- C1: the claim requires `check_sufficient_balance` to return true iff
`balance >= amount + minReserve` over the true (unbounded) sum, never
wrapping when `amount + minReserve` exceeds the `u64` range.  The code's
unchecked `u64` addition wraps instead (release semantics; a debug build
panics): with balance 5, amount `2 ^ 64 - 1` and reserve 2 the code
reports the balance sufficient, although the true sum far exceeds the
balance, so the code violates the claim at this input. -/
theorem check_sufficient_balance_overflow_wraps :
    (check_sufficient_balance envW settingsC1 0 pkR 18446744073709551615).1 =
      .ok true ∧
    ¬ (18446744073709551615 + 2 ≤ 5) := by
  exact ⟨rfl, by decide⟩

/-- C2: when the balance check fails, `send_transaction` returns the
insufficient-balance error (carrying the current balance from the first
read and the required total), and its network trace contains no
submission call — the only mutating call — so the on-chain state is
untouched. -/
theorem send_transaction_insufficient_no_submit (env : Env) (config : Settings)
    (n : Nat) (kp : Keypair) (r : Pubkey) (b0 b1 : Nat)
    (hkp : create_sender_keypair env config = .ok kp)
    (hr : env.pubkeyFromStr config.keys.receiver_public_key = some r)
    (h0 : env.balanceResponse n = .ok b0)
    (h1 : env.balanceResponse (n + 1) = .ok b1)
    (hins : ¬ u64add config.transaction.amount config.transaction.min_balance ≤ b1) :
    (send_transaction env config n).1 = .error (.insufficientBalance b0
        (u64add config.transaction.amount config.transaction.min_balance)) ∧
    ((send_transaction env config n).2.all fun c => !isSubmit c) = true := by
  rw [send_transaction_insufficient env config n kp r b0 b1 hkp hr h0 h1 hins]
  simp [isSubmit]

/-- C2 witness: a concrete insufficient-balance run (balance 5, amount 10,
reserve 3) returns the insufficient-balance error and performs no
submission. -/
theorem send_transaction_insufficient_no_submit_witness :
    (send_transaction envW settingsW 0).1 = .error (.insufficientBalance 5 13) ∧
    ((send_transaction envW settingsW 0).2.all fun c => !isSubmit c) = true :=
  send_transaction_insufficient_no_submit envW settingsW 0 kpW pkR 5 5
    rfl rfl rfl rfl (by decide)

/-- C3: the claim requires every core failure — including a failure of the
transfer itself — to exit non-zero.  The code's `main` only logs a
`send_transaction` failure and still returns `Ok(())`, so the process
exits 0: the first two conjuncts exhibit a run whose transfer fails with
an insufficient balance yet whose exit code is 0.  The success half of the
claim does hold: the third conjunct shows a successful run printing the
transaction signature and exiting 0. -/
theorem main_run_exit_zero_on_transfer_failure :
    (send_transaction envW settingsW 1).1 = .error (.insufficientBalance 5 13) ∧
    main_run (some settingsW) envW = (0, none) ∧
    main_run (some settingsW) envOK = (0, some "sig") := by
  exact ⟨rfl, rfl, rfl⟩

/-- C9: `create_sender_keypair` is a pure, deterministic transformation of
its input string by the decoding primitives: its result is independent of
the network oracle (balance, blockhash and submission responses) and of
every other configuration field, so two calls agreeing on the decoding
primitives and the secret-key string return identical results — in
particular identical error kinds or keypairs with identical derived
public keys. -/
theorem create_sender_keypair_pure (env1 env2 : Env) (config1 config2 : Settings)
    (hdec : env1.decodeBase58 = env2.decodeBase58)
    (hkb : env1.keypairFromBytes = env2.keypairFromBytes)
    (hkey : config1.keys.sender_private_key = config2.keys.sender_private_key) :
    create_sender_keypair env1 config1 = create_sender_keypair env2 config2 := by
  simp only [create_sender_keypair, hdec, hkb, hkey]

/-- C9 witness: two runs differing in their whole network oracle (balance
5 versus balance 100) load the same keypair. -/
theorem create_sender_keypair_pure_witness :
    create_sender_keypair envW settingsW = create_sender_keypair envOK settingsW :=
  create_sender_keypair_pure envW envOK settingsW settingsW rfl rfl rfl

/-- C4: when the submission call times out, `send_transaction` propagates
the timeout unchanged (`?` on an `anyhow`-wrapped client error keeps the
source error kind observable), so the caller receives the client-error
kind `timeout`, which is distinct from the insufficient-balance error,
from every other client-error kind, and from every local validation
error — the caller can therefore recognise the indeterminate outcome and
run a follow-up status check before retrying. -/
theorem send_transaction_timeout_distinct (env : Env) (config : Settings)
    (n : Nat) (kp : Keypair) (r : Pubkey) (b0 b1 bh : Nat)
    (hkp : create_sender_keypair env config = .ok kp)
    (hr : env.pubkeyFromStr config.keys.receiver_public_key = some r)
    (h0 : env.balanceResponse n = .ok b0)
    (h1 : env.balanceResponse (n + 1) = .ok b1)
    (hsuff : u64add config.transaction.amount config.transaction.min_balance ≤ b1)
    (hbh : env.blockhashResponse = .ok bh)
    (ht : env.submitResponse = .error .timeout) :
    (send_transaction env config n).1 = .error (.clientError .timeout) ∧
    (∀ c req, TransferError.clientError .timeout ≠ .insufficientBalance c req) ∧
    (∀ e, e ≠ ClientError.timeout → TransferError.clientError .timeout ≠ .clientError e) ∧
    TransferError.clientError .timeout ≠ .invalidPrivateKey ∧
    TransferError.clientError .timeout ≠ .invalidKeyLength ∧
    TransferError.clientError .timeout ≠ .keypairCreationFailed ∧
    TransferError.clientError .timeout ≠ .invalidReceiverPubkey := by
  refine ⟨?_, by simp, ?_, by simp, by simp, by simp, by simp⟩
  · rw [send_transaction_submitted env config n kp r b0 b1 bh hkp hr h0 h1 hsuff hbh, ht]
  · intro e he hEq
    exact he (TransferError.clientError.inj hEq).symm

/-- C4 witness: a concrete sufficient-balance run whose submission times
out reports the client-error kind `timeout`. -/
theorem send_transaction_timeout_distinct_witness :
    (send_transaction envT settingsW 0).1 = .error (.clientError .timeout) :=
  (send_transaction_timeout_distinct envT settingsW 0 kpW pkR 100 100 7
    rfl rfl rfl rfl (by decide) rfl rfl).1

/-- C5: full classification of `create_sender_keypair` over any decoding
primitives and input: it fails with the invalid-encoding error exactly
when base-58 decoding fails; with the invalid-key-length error exactly
when decoding yields a byte string whose length is not 64, regardless of
content; with the key-construction error exactly when the 64 decoded
bytes do not form a valid keypair; and otherwise returns the keypair
built from the decoded bytes. -/
theorem create_sender_keypair_classification (env : Env) (config : Settings) :
    (create_sender_keypair env config = .error .invalidPrivateKey ↔
      env.decodeBase58 config.keys.sender_private_key = none) ∧
    (create_sender_keypair env config = .error .invalidKeyLength ↔
      ∃ bs, env.decodeBase58 config.keys.sender_private_key = some bs ∧
        bs.length ≠ 64) ∧
    (create_sender_keypair env config = .error .keypairCreationFailed ↔
      ∃ bs, env.decodeBase58 config.keys.sender_private_key = some bs ∧
        bs.length = 64 ∧ env.keypairFromBytes bs = none) ∧
    ∀ kp, (create_sender_keypair env config = .ok kp ↔
      ∃ bs, env.decodeBase58 config.keys.sender_private_key = some bs ∧
        bs.length = 64 ∧ env.keypairFromBytes bs = some kp) := by
  cases hd : env.decodeBase58 config.keys.sender_private_key with
  | none => simp [create_sender_keypair, hd]
  | some bs =>
    by_cases hl : bs.length = 64
    · cases hk : env.keypairFromBytes bs with
      | none => simp [create_sender_keypair, hd, hl, hk]
      | some kp => simp [create_sender_keypair, hd, hl, hk]
    · simp [create_sender_keypair, hd, hl]

/-- C6: when the configured receiver address string does not parse (and
the keypair itself loads), `send_transaction` fails with the
invalid-receiver-address error with an empty network trace: no balance
query, no blockhash fetch, no submission. -/
theorem send_transaction_invalid_address_no_network (env : Env)
    (config : Settings) (n : Nat) (kp : Keypair)
    (hkp : create_sender_keypair env config = .ok kp)
    (hbad : env.pubkeyFromStr config.keys.receiver_public_key = none) :
    send_transaction env config n = (.error .invalidReceiverPubkey, []) := by
  simp only [send_transaction, hkp, hbad]

/-- C6 witness: a concrete run with an unparsable receiver address fails
with the invalid-address error and makes no network call. -/
theorem send_transaction_invalid_address_no_network_witness :
    send_transaction envBadAddr settingsW 0 = (.error .invalidReceiverPubkey, []) :=
  send_transaction_invalid_address_no_network envBadAddr settingsW 0 kpW rfl rfl

/-- C10: if the submission call succeeds (the network confirmed the
transaction) but the balance read performed afterwards fails,
`send_transaction` returns that client error instead of the transaction
signature, although its trace shows exactly one (confirmed) submission:
a caller can receive a failure for a transfer that landed on-chain. -/
theorem send_transaction_post_balance_read_masks_success (env : Env)
    (config : Settings) (n : Nat) (kp : Keypair) (r : Pubkey)
    (b0 b1 bh : Nat) (sig : String) (e : ClientError)
    (hkp : create_sender_keypair env config = .ok kp)
    (hr : env.pubkeyFromStr config.keys.receiver_public_key = some r)
    (h0 : env.balanceResponse n = .ok b0)
    (h1 : env.balanceResponse (n + 1) = .ok b1)
    (hsuff : u64add config.transaction.amount config.transaction.min_balance ≤ b1)
    (hbh : env.blockhashResponse = .ok bh)
    (hsub : env.submitResponse = .ok sig)
    (hpost : env.balanceResponse (n + 2) = .error e) :
    (send_transaction env config n).1 = .error (.clientError e) ∧
    countSubmits (send_transaction env config n).2 = 1 := by
  rw [send_transaction_submitted env config n kp r b0 b1 bh hkp hr h0 h1 hsuff hbh,
    hsub, hpost]
  simp [countSubmits, isSubmit]

/-- C10 witness: a concrete run whose submission is confirmed but whose
post-transfer balance read fails returns the network error, not the
signature. -/
theorem send_transaction_post_balance_read_masks_success_witness :
    (send_transaction envPost settingsW 0).1 =
      .error (.clientError .networkError) :=
  (send_transaction_post_balance_read_masks_success envPost settingsW 0 kpW pkR
    100 100 7 "sig" .networkError rfl rfl rfl rfl (by decide) rfl rfl rfl).1

/-- C7: any transaction ever passed to the submission call by
`send_transaction` has its fee payer and the source of its (sole)
transfer instruction equal to the public key derived from the signing
keypair, and is signed by that keypair alone — there is no separately
supplied source value. -/
theorem send_transaction_source_is_signer (env : Env) (config : Settings)
    (n : Nat) (kp : Keypair)
    (hkp : create_sender_keypair env config = .ok kp) :
    ∀ tx cl cfg, NetCall.submit tx cl cfg ∈ (send_transaction env config n).2 →
      tx.message.payer = some kp.pubkey ∧
      (∀ ins ∈ tx.message.instructions, ins.fromPubkey = kp.pubkey) ∧
      tx.signers = [kp.pubkey] := by
  intro tx cl cfg htx
  cases hr : env.pubkeyFromStr config.keys.receiver_public_key with
  | none => simp [send_transaction, hkp, hr] at htx
  | some r =>
    cases h0 : env.balanceResponse n with
    | error e0 => simp [send_transaction, hkp, hr, h0] at htx
    | ok b0 =>
      cases h1 : env.balanceResponse (n + 1) with
      | error e1 =>
          simp [send_transaction, check_sufficient_balance, hkp, hr, h0, h1] at htx
      | ok b1 =>
        by_cases hs :
            u64add config.transaction.amount config.transaction.min_balance ≤ b1
        · cases hbh : env.blockhashResponse with
          | error e2 =>
              simp [send_transaction, check_sufficient_balance, hkp, hr, h0, h1,
                decide_eq_true hs, hbh] at htx
          | ok bh =>
            rw [send_transaction_submitted env config n kp r b0 b1 bh
              hkp hr h0 h1 hs hbh] at htx
            cases hsub : env.submitResponse with
            | error e3 =>
                rw [hsub] at htx
                simp only [List.mem_cons, List.not_mem_nil, or_false] at htx
                rcases htx with h | h | h | h <;> first
                  | (obtain ⟨rfl, -, -⟩ := NetCall.submit.inj h
                     simp [builtTransaction, Transaction.new_unsigned,
                       Transaction.sign])
                  | exact absurd h (by simp)
            | ok s =>
              rw [hsub] at htx
              cases hpost : env.balanceResponse (n + 2) with
              | error e4 =>
                  rw [hpost] at htx
                  simp only [List.mem_cons, List.not_mem_nil, or_false] at htx
                  rcases htx with h | h | h | h | h <;> first
                    | (obtain ⟨rfl, -, -⟩ := NetCall.submit.inj h
                       simp [builtTransaction, Transaction.new_unsigned,
                         Transaction.sign])
                    | exact absurd h (by simp)
              | ok b2 =>
                  rw [hpost] at htx
                  simp only [List.mem_cons, List.not_mem_nil, or_false] at htx
                  rcases htx with h | h | h | h | h <;> first
                    | (obtain ⟨rfl, -, -⟩ := NetCall.submit.inj h
                       simp [builtTransaction, Transaction.new_unsigned,
                         Transaction.sign])
                    | exact absurd h (by simp)
        · rw [send_transaction_insufficient env config n kp r b0 b1
            hkp hr h0 h1 hs] at htx
          simp at htx

/-- C7 witness: in the concrete successful run, the submitted transaction
carries the loaded keypair's public key as fee payer. -/
theorem send_transaction_source_is_signer_witness :
    (builtTransaction kpW pkR 10 7).message.payer = some kpW.pubkey :=
  (send_transaction_source_is_signer envOK settingsW 0 kpW rfl
    (builtTransaction kpW pkR 10 7) CommitmentLevel.confirmed sendConfigLit
    (by decide)).1

/-- C8: in every run, whatever the oracle answers, the trace of
`send_transaction` contains at most one submission call, and every
submission call it contains is configured with preflight simulation
skipped. -/
theorem send_transaction_single_submit_skips_preflight (env : Env)
    (config : Settings) (n : Nat) :
    countSubmits (send_transaction env config n).2 ≤ 1 ∧
    ((send_transaction env config n).2.all submitSkipsPreflight) = true := by
  cases hkp : create_sender_keypair env config with
  | error e => simp [send_transaction, hkp, countSubmits]
  | ok kp =>
    cases hr : env.pubkeyFromStr config.keys.receiver_public_key with
    | none => simp [send_transaction, hkp, hr, countSubmits]
    | some r =>
      cases h0 : env.balanceResponse n with
      | error e0 =>
          simp [send_transaction, hkp, hr, h0, countSubmits, isSubmit,
            submitSkipsPreflight]
      | ok b0 =>
        cases h1 : env.balanceResponse (n + 1) with
        | error e1 =>
            simp [send_transaction, check_sufficient_balance, hkp, hr, h0, h1,
              countSubmits, isSubmit, submitSkipsPreflight]
        | ok b1 =>
          by_cases hs :
              u64add config.transaction.amount config.transaction.min_balance ≤ b1
          · cases hbh : env.blockhashResponse with
            | error e2 =>
                simp [send_transaction, check_sufficient_balance, hkp, hr, h0, h1,
                  decide_eq_true hs, hbh, countSubmits, isSubmit,
                  submitSkipsPreflight]
            | ok bh =>
              rw [send_transaction_submitted env config n kp r b0 b1 bh
                hkp hr h0 h1 hs hbh]
              cases env.submitResponse with
              | error e3 =>
                  simp [countSubmits, isSubmit, submitSkipsPreflight, sendConfigLit]
              | ok s =>
                cases env.balanceResponse (n + 2) with
                | error e4 =>
                    simp [countSubmits, isSubmit, submitSkipsPreflight,
                      sendConfigLit]
                | ok b2 =>
                    simp [countSubmits, isSubmit, submitSkipsPreflight,
                      sendConfigLit]
          · rw [send_transaction_insufficient env config n kp r b0 b1
              hkp hr h0 h1 hs]
            simp [countSubmits, isSubmit, submitSkipsPreflight]

end SolanaTransfer
